import Mathlib

/-!
Verification of the RAG test-case generation core of this repository.

Python strings are embedded as `List Char` (sequences of code points);
Python functions from `src/models.py`, `src/rag_service.py` and
`src/rag_planning_service.py` are translated into executable Lean
definitions over that representation.  Fallible operations (`json.loads`,
`str.format`, reading an unassigned local) are modelled with
`Option`/`Except`; the remote model and the vector index are opaque
oracles passed as parameters, matching the spec's external-interface
boundary.
-/

/-- Python strings are sequences of code points; we embed them as lists of
characters. -/
abbrev Str := List Char

/-- Coerce a Lean string literal to the embedded string type. -/
def lit (s : String) : Str := s.data

/-- The whitespace characters recognised by Python's `str.strip()` and the
`\s` regex class (ASCII range, which covers every string the code builds). -/
def pyIsSpace (c : Char) : Bool :=
  c = ' ' || c = '\t' || c = '\n' || c = '\x0d' || c = '\x0b' || c = '\x0c'

/-- Python `str.strip()`: drop leading and trailing whitespace. -/
def pyStrip (s : Str) : Str :=
  ((s.dropWhile pyIsSpace).reverse.dropWhile pyIsSpace).reverse

/-- Python `str.strip(chars)`: drop leading and trailing characters drawn
from the given set. -/
def pyStripChars (chars : Str) (s : Str) : Str :=
  ((s.dropWhile (chars.contains ·)).reverse.dropWhile (chars.contains ·)).reverse

/-- ASCII lower-casing of one character, as Python `str.lower()` does on the
ASCII fragment used throughout the code. -/
def lowerChar (c : Char) : Char :=
  if 'A' ≤ c ∧ c ≤ 'Z' then Char.ofNat (c.toNat + 32) else c

/-- Python `str.lower()` (ASCII fragment). -/
def lowerStr (s : Str) : Str := s.map lowerChar

/-- Does `s` start with `p` (case-sensitive)?  Python `str.startswith`. -/
def startsWithL : Str → Str → Bool
  | _, [] => true
  | [], _ :: _ => false
  | c :: s, p :: ps => c = p && startsWithL s ps

/-- Does `s` start with `p`, comparing ASCII case-insensitively? -/
def startsWithCI (s p : Str) : Bool := startsWithL (lowerStr s) (lowerStr p)

/-- Python substring containment `p in s`. -/
def containsSub : Str → Str → Bool
  | [], p => p.isEmpty
  | c :: rest, p => startsWithL (c :: rest) p || containsSub rest p

/-- Split on a single separator character, Python `str.split(sep)` for a
one-character separator (keeps empty fields). -/
def splitOnCharAux (sep : Char) : Str → Str → List Str
  | [], acc => [acc.reverse]
  | c :: rest, acc =>
    if c = sep then acc.reverse :: splitOnCharAux sep rest []
    else splitOnCharAux sep rest (c :: acc)

/-- Python `str.split(sep)` for a one-character separator. -/
def splitOnChar (sep : Char) (s : Str) : List Str := splitOnCharAux sep s []

/-- Python `str.join`: interleave a separator between parts. -/
def joinSep (sep : Str) : List Str → Str
  | [] => []
  | [p] => p
  | p :: rest => p ++ sep ++ joinSep sep rest

/-- `models.py` `TestCase.clean_id`, step 2: the regex substitution
`re.sub(r'[^a-zA-Z0-9\-_]', '_', s)` replaces each character outside the
class with an underscore. -/
def replaceInvalidChar (c : Char) : Char :=
  if ('a' ≤ c ∧ c ≤ 'z') ∨ ('A' ≤ c ∧ c ≤ 'Z') ∨ ('0' ≤ c ∧ c ≤ '9') ∨
      c = '-' ∨ c = '_' then c
  else '_'

/-- `models.py` `TestCase.clean_id`, step 3: `re.sub(r'_+', '_', s)`
collapses every run of underscores to a single underscore. -/
def collapseUnderscores : Str → Str
  | [] => []
  | '_' :: '_' :: rest => collapseUnderscores ('_' :: rest)
  | c :: rest => c :: collapseUnderscores rest

/-- `models.py` `TestCase.clean_id`: normalize an id for storage.  Mirrors
the source line by line: empty/whitespace-only input short-circuits to the
sentinel, then invalid characters are replaced, underscore runs collapsed,
leading/trailing underscores stripped, and an empty outcome falls back to
the sentinel. -/
def cleanId (rawId : Str) : Str :=
  if rawId.isEmpty || (pyStrip rawId).isEmpty then lit "cleaned_id"
  else
    let c1 := pyStrip rawId
    let c2 := c1.map replaceInvalidChar
    let c3 := collapseUnderscores c2
    let c4 := pyStripChars (lit "_") c3
    if c4.isEmpty then lit "cleaned_id" else c4

/-- Python `str.split('\n\n')`: split on the two-character separator,
scanning left to right without overlap. -/
def splitOnNNAux : Str → Str → List Str
  | '\n' :: '\n' :: rest, acc => acc.reverse :: splitOnNNAux rest []
  | c :: rest, acc => splitOnNNAux rest (c :: acc)
  | [], acc => [acc.reverse]

/-- Python `str.split('\n\n')`. -/
def splitOnNN (s : Str) : List Str := splitOnNNAux s []

/-- `rag_service.py` `_truncate_text`: truncate to a maximum length with a
three-character ellipsis; empty/falsy input maps to the empty string and the
remaining input is stripped first. -/
def truncateText (text : Str) (maxLength : Nat) : Str :=
  if text.isEmpty then []
  else
    let t := pyStrip text
    if t.length ≤ maxLength then t
    else t.take (maxLength - 3) ++ lit "..."

/-- A persisted test-case record as produced by `TestCase.to_dict` in
`models.py`: the fields read by `load_test_case_documents`. -/
structure TestCaseData where
  id : Str
  purpose : Str
  scenerio : Str
  test_data : Str
  steps : List Str
  expected : List Str
  note : Str

/-- `rag_service.py` `load_test_case_documents`, per-record body (lines
140-168): build the retrievable document's `page_content` for one test
case.  Fields are truncated (purpose/scenario 200, test_data 150, each of
the first five steps/expected 100, note 100), assembled into the fixed
`ID:/Purpose:/Scenario:/Test Data:/Steps:/Expected:/Note:` layout,
stripped, and finally cut to `content[:1500] + "..."` when longer than
1500 characters. -/
def buildDocumentContent (tc : TestCaseData) : Str :=
  let purpose := truncateText tc.purpose 200
  let scenario := truncateText tc.scenerio 200
  let testData := truncateText tc.test_data 150
  let stepsText := joinSep (lit " | ") ((tc.steps.take 5).map (truncateText · 100))
  let expectedText := joinSep (lit " | ") ((tc.expected.take 5).map (truncateText · 100))
  let note := truncateText tc.note 100
  let content := pyStrip ((lit "ID: ") ++ tc.id ++ (lit "\nPurpose: ") ++ purpose ++
    (lit "\nScenario: ") ++ scenario ++ (lit "\nTest Data: ") ++ testData ++
    (lit "\nSteps: ") ++ stepsText ++ (lit "\nExpected: ") ++ expectedText ++
    (lit "\nNote: ") ++ note)
  if content.length > 1500 then content.take 1500 ++ lit "..." else content

/-- Priority keywords of `_optimize_api_documentation` (`rag_service.py`
lines 701-705), in source order.  They are tested against the lower-cased
line, so the upper-case entries can never match — preserved faithfully. -/
def apiPriorityKeywords : List Str :=
  [lit "endpoint", lit "api", lit "method", lit "parameter", lit "request",
   lit "response", lit "error", lit "status", lit "code", lit "example",
   lit "authentication", lit "authorization", lit "POST", lit "GET",
   lit "PUT", lit "DELETE", lit "PATCH", lit "HTTP", lit "JSON", lit "XML"]

/-- First pass of `_optimize_api_documentation` (lines 708-715): append
lines containing a priority keyword while the 15000-char budget holds;
`break` on the first keyword line that no longer fits. -/
def optimizeApiFirstPass : List Str → List Str → Nat → List Str × Nat
  | [], acc, size => (acc, size)
  | line :: rest, acc, size =>
    if apiPriorityKeywords.any (fun kw => containsSub (lowerStr line) kw) then
      if size + line.length + 1 ≤ 15000 then
        optimizeApiFirstPass rest (acc ++ [line]) (size + line.length + 1)
      else (acc, size)
    else optimizeApiFirstPass rest acc size

/-- Second pass of `_optimize_api_documentation` (lines 718-725): fill the
remaining budget with lines not already included; `break` on the first
candidate that does not fit. -/
def optimizeApiSecondPass : List Str → List Str → Nat → List Str × Nat
  | [], acc, size => (acc, size)
  | line :: rest, acc, size =>
    if acc.contains line then optimizeApiSecondPass rest acc size
    else if size + line.length + 1 ≤ 15000 then
      optimizeApiSecondPass rest (acc ++ [line]) (size + line.length + 1)
    else (acc, size)

/-- `rag_service.py` `_optimize_api_documentation` (lines 687-733): return
the input unchanged when empty or at most 15000 characters, otherwise
rebuild it from priority lines and filler lines under a 15000-char budget
and append a truncation notice when anything was dropped. -/
def optimizeApiDocumentation (apiDoc : Str) : Str :=
  if apiDoc.isEmpty = true ∨ apiDoc.length ≤ 15000 then apiDoc
  else
    let lines := splitOnChar '\n' apiDoc
    let p1 := optimizeApiFirstPass lines [] 0
    let p2 := if p1.2 < 15000 then optimizeApiSecondPass lines p1.1 p1.2 else p1
    let optimizedDoc := joinSep (lit "\n") p2.1
    if optimizedDoc.length < apiDoc.length then
      optimizedDoc ++ lit "\n\n[Note: Content optimized for processing - some details may be truncated]"
    else optimizedDoc

/-- Priority keywords of `_optimize_documentation_for_planning`
(`rag_planning_service.py` lines 234-241), in source order. -/
def planningPriorityKeywords : List Str :=
  [lit "endpoint", lit "api", lit "method", lit "parameter", lit "request",
   lit "response", lit "error", lit "status", lit "code", lit "example",
   lit "authentication", lit "authorization", lit "POST", lit "GET",
   lit "PUT", lit "DELETE", lit "PATCH", lit "HTTP", lit "JSON", lit "XML",
   lit "business", lit "rule", lit "flow", lit "process", lit "validation",
   lit "logic", lit "##", lit "###", lit "####", lit "#",
   lit "overview", lit "description", lit "summary", lit "introduction"]

/-- First pass of `_optimize_documentation_for_planning` (lines 244-253):
append non-blank priority sections that fit the 25000-char budget (no
`break`: later smaller sections may still be added). -/
def optimizePlanningFirstPass : List Str → List Str → Nat → List Str × Nat
  | [], acc, size => (acc, size)
  | sec :: rest, acc, size =>
    if (pyStrip sec).isEmpty then optimizePlanningFirstPass rest acc size
    else if planningPriorityKeywords.any (fun kw => containsSub (lowerStr sec) kw) ∧
        size + sec.length + 2 ≤ 25000 then
      optimizePlanningFirstPass rest (acc ++ [sec]) (size + sec.length + 2)
    else optimizePlanningFirstPass rest acc size

/-- Second pass of `_optimize_documentation_for_planning` (lines 256-272):
fill remaining space with other non-blank sections of at most 2000 chars;
on the first one that does not fit, optionally append a truncated version
(when it mentions endpoint/api/method) and `break`.  `remainingSpace` is
the value captured before the pass, as in the source. -/
def optimizePlanningSecondPass (remainingSpace : Nat) :
    List Str → List Str → Nat → List Str × Nat
  | [], acc, size => (acc, size)
  | sec :: rest, acc, size =>
    if acc.contains sec = false ∧ (pyStrip sec).isEmpty = false then
      if sec.length > 2000 then optimizePlanningSecondPass remainingSpace rest acc size
      else if size + sec.length + 2 ≤ 25000 then
        optimizePlanningSecondPass remainingSpace rest (acc ++ [sec]) (size + sec.length + 2)
      else
        if [lit "endpoint", lit "api", lit "method"].any
            (fun kw => containsSub (lowerStr sec) kw) then
          (acc ++ [sec.take (remainingSpace - 100) ++ lit "..."], size)
        else (acc, size)
    else optimizePlanningSecondPass remainingSpace rest acc size

/-- `rag_planning_service.py` `_optimize_documentation_for_planning`
(lines 220-280): identity on empty or ≤25000-char input, otherwise rebuild
from paragraph sections under a 25000-char budget with a truncation
notice when anything was dropped. -/
def optimizeDocumentationForPlanning (apiDoc : Str) : Str :=
  if apiDoc.isEmpty = true ∨ apiDoc.length ≤ 25000 then apiDoc
  else
    let sections := splitOnNN apiDoc
    let p1 := optimizePlanningFirstPass sections [] 0
    let remainingSpace := 25000 - p1.2
    let p2 := if remainingSpace > 1000 then
        optimizePlanningSecondPass remainingSpace sections p1.1 p1.2
      else p1
    let optimizedDoc := joinSep (lit "\n\n") p2.1
    if optimizedDoc.length < apiDoc.length then
      optimizedDoc ++ lit "\n\n[Note: Documentation optimized for planning - detailed examples and long sections may be truncated]"
    else optimizedDoc

/-- `rag_service.py` `embed_documents` lines 217-228: the adaptive batch
size.  Python floats are modelled as exact rationals; `int()` on the
positive quotient is `Int.floor`. -/
def optimalBatchSize (docLens : List Nat) : Int :=
  let totalContentSize : Nat := docLens.sum
  let avgDocSize : ℚ :=
    if docLens.isEmpty then 0 else (totalContentSize : ℚ) / (docLens.length : ℚ)
  max 1 (min 10 (Int.floor ((20000 : ℚ) / max avgDocSize 1)))

/-- The batch-size formula exactly as the spec words it:
`clamp(floor(20000 / avg_doc_size), 1, 10)`.  Stated from the spec for
comparison with `optimalBatchSize`, which is translated from the code. -/
def specBatchSize (avgDocSize : ℚ) : Int :=
  max 1 (min 10 (Int.floor ((20000 : ℚ) / avgDocSize)))

/-- C9: `clean_id` replaces characters outside `[A-Za-z0-9_-]` with
underscores, collapses and trims them, mapping `"Test Case #1!"` to
`"Test_Case_1"`; it returns the sentinel `"cleaned_id"` on empty or
all-invalid input and never returns an empty string. -/
theorem clean_id_normalizes :
    cleanId (lit "Test Case #1!") = lit "Test_Case_1" ∧
    cleanId (lit "") = lit "cleaned_id" ∧
    cleanId (lit "@#!") = lit "cleaned_id" ∧
    ∀ s : Str, (cleanId s).isEmpty = false := by
  refine ⟨by decide, by decide, by decide, ?_⟩
  intro s
  unfold cleanId
  split
  · rfl
  · dsimp only
    split
    · rfl
    · next h => simpa using h

/-- A Python value as produced by `json.loads` and manipulated by the
parsing/normalization code: strings, integers, floats (kept as their
source token — no theorem depends on float rendering), booleans, `None`,
lists and dicts (insertion-ordered, unique keys). -/
inductive PyObj where
  | str (s : Str)
  | int (n : Int)
  | float (tok : Str)
  | bool (b : Bool)
  | none
  | list (xs : List PyObj)
  | dict (entries : List (Str × PyObj))

/-- First-match lookup in a dict's entry list (keys are unique because
insertion goes through `dictSet`). -/
def dictLookup : List (Str × PyObj) → Str → Option PyObj
  | [], _ => Option.none
  | (k, v) :: rest, key => if k = key then some v else dictLookup rest key

/-- Python `d[k] = v`: replace in place if the key exists, else append. -/
def dictSet : List (Str × PyObj) → Str → PyObj → List (Str × PyObj)
  | [], k, v => [(k, v)]
  | (k', v') :: rest, k, v =>
    if k' = k then (k', v) :: rest else (k', v') :: dictSet rest k v

/-- Python `k in d` for a dict. -/
def dictHasKey (es : List (Str × PyObj)) (k : Str) : Bool :=
  (dictLookup es k).isSome

/-- Python `dict.get(key, default)`; the source only calls `.get` on
values that are dicts. -/
def PyObj.get (o : PyObj) (k : Str) (dflt : PyObj) : PyObj :=
  match o with
  | .dict es => (dictLookup es k).getD dflt
  | _ => dflt

/-- Is the value a dict (`isinstance(x, dict)`)? -/
def PyObj.isDict : PyObj → Bool
  | .dict _ => true
  | _ => false

def hexDigitChar (n : Nat) : Char :=
  if n < 10 then Char.ofNat ('0'.toNat + n) else Char.ofNat ('a'.toNat + n - 10)

/-- One character of Python `repr` of a string. -/
def reprEscapeChar (quote : Char) (c : Char) : Str :=
  if c = '\\' then lit "\\\\"
  else if c = quote then ['\\', quote]
  else if c = '\n' then lit "\\n"
  else if c = '\x0d' then lit "\\r"
  else if c = '\t' then lit "\\t"
  else if c.toNat < 32 ∨ c.toNat = 127 then
    ['\\', 'x', hexDigitChar (c.toNat / 16), hexDigitChar (c.toNat % 16)]
  else [c]

/-- Python `repr` of a string: single-quoted unless the string contains a
single quote and no double quote. -/
def pyReprStr (s : Str) : Str :=
  let quote := if s.contains '\'' ∧ ¬ s.contains '"' then '"' else '\''
  [quote] ++ s.flatMap (reprEscapeChar quote) ++ [quote]

mutual
/-- Python `repr` of a value (used by `str()` on lists and dicts). -/
def pyRepr : PyObj → Str
  | .str s => pyReprStr s
  | .int n => lit (toString n)
  | .float tok => tok
  | .bool b => if b then lit "True" else lit "False"
  | .none => lit "None"
  | .list xs => lit "[" ++ joinSep (lit ", ") (pyReprList xs) ++ lit "]"
  | .dict es => lit "\x7b" ++ joinSep (lit ", ") (pyReprEntries es) ++ lit "\x7d"

def pyReprList : List PyObj → List Str
  | [] => []
  | x :: xs => pyRepr x :: pyReprList xs

def pyReprEntries : List (Str × PyObj) → List Str
  | [] => []
  | (k, v) :: es => (pyReprStr k ++ lit ": " ++ pyRepr v) :: pyReprEntries es
end

/-- Python `str()` of a value. -/
def pyToStr : PyObj → Str
  | .str s => s
  | .int n => lit (toString n)
  | .float tok => tok
  | .bool b => if b then lit "True" else lit "False"
  | .none => lit "None"
  | .list xs => pyRepr (.list xs)
  | .dict es => pyRepr (.dict es)

/-! ### `json.loads` (the stdlib behaviour the parser relies on) -/

/-- JSON inter-token whitespace. -/
def jsonSkipWs (s : Str) : Str :=
  s.dropWhile (fun c => c = ' ' || c = '\t' || c = '\n' || c = '\x0d')

def hexVal (c : Char) : Option Nat :=
  if '0' ≤ c ∧ c ≤ '9' then some (c.toNat - '0'.toNat)
  else if 'a' ≤ c ∧ c ≤ 'f' then some (c.toNat - 'a'.toNat + 10)
  else if 'A' ≤ c ∧ c ≤ 'F' then some (c.toNat - 'A'.toNat + 10)
  else Option.none

/-- Four hex digits (`\uXXXX` payload). -/
def hex4 : Str → Option (Nat × Str)
  | a :: b :: c :: d :: rest =>
    match hexVal a, hexVal b, hexVal c, hexVal d with
    | some x, some y, some z, some w => some ((((x * 16 + y) * 16 + z) * 16 + w), rest)
    | _, _, _, _ => Option.none
  | _ => Option.none

/-- JSON string body after the opening quote, strict mode: raw control
characters are rejected, escape sequences decoded.  Surrogate pairs are
combined; a lone surrogate (which Python would keep) has no `Char`
representation and is rejected — no claim depends on that corner. -/
def parseJStringAux : Nat → Str → Str → Option (Str × Str)
  | 0, _, _ => Option.none
  | _, [], _ => Option.none
  | fuel + 1, c :: rest, acc =>
    if c = '"' then some (acc.reverse, rest)
    else if c = '\\' then
      match rest with
      | [] => Option.none
      | e :: rest2 =>
        if e = '"' then parseJStringAux fuel rest2 ('"' :: acc)
        else if e = '\\' then parseJStringAux fuel rest2 ('\\' :: acc)
        else if e = '/' then parseJStringAux fuel rest2 ('/' :: acc)
        else if e = 'b' then parseJStringAux fuel rest2 ('\x08' :: acc)
        else if e = 'f' then parseJStringAux fuel rest2 ('\x0c' :: acc)
        else if e = 'n' then parseJStringAux fuel rest2 ('\n' :: acc)
        else if e = 'r' then parseJStringAux fuel rest2 ('\x0d' :: acc)
        else if e = 't' then parseJStringAux fuel rest2 ('\t' :: acc)
        else if e = 'u' then
          match hex4 rest2 with
          | Option.none => Option.none
          | some (code, rest3) =>
            if 0xD800 ≤ code ∧ code ≤ 0xDBFF then
              match rest3 with
              | '\\' :: 'u' :: more =>
                match hex4 more with
                | some (lo, rest4) =>
                  if 0xDC00 ≤ lo ∧ lo ≤ 0xDFFF then
                    parseJStringAux fuel rest4
                      (Char.ofNat (0x10000 + (code - 0xD800) * 0x400 + (lo - 0xDC00)) :: acc)
                  else Option.none
                | Option.none => Option.none
              | _ => Option.none
            else if 0xDC00 ≤ code ∧ code ≤ 0xDFFF then Option.none
            else parseJStringAux fuel rest3 (Char.ofNat code :: acc)
        else Option.none
    else if c.toNat < 32 then Option.none
    else parseJStringAux fuel rest (c :: acc)

/-- Maximal digit run. -/
def spanDigits (s : Str) : Str × Str :=
  (s.takeWhile Char.isDigit, s.dropWhile Char.isDigit)

/-- Decimal digits to a natural number. -/
def digitsToNat (ds : Str) : Nat :=
  ds.foldl (fun acc c => acc * 10 + (c.toNat - '0'.toNat)) 0

/-- The number token, per `json`'s `NUMBER_RE`
`(-?(?:0|[1-9]\d*))(\.\d+)?([eE][-+]?\d+)?`: the match is maximal but a
malformed fraction/exponent simply ends the token early.  Returns the
value (int, or float kept as its token) and the rest. -/
def parseJNumber (s : Str) : Option (PyObj × Str) :=
  let (negStr, s1) : Str × Str := match s with
    | '-' :: r => (['-'], r)
    | _ => ([], s)
  match s1 with
  | '0' :: r0 =>
    parseJNumberTail negStr ['0'] r0
  | c :: _ =>
    if c.isDigit then
      let (ds, r0) := spanDigits s1
      parseJNumberTail negStr ds r0
    else Option.none
  | [] => Option.none
where
  /-- Fraction and exponent groups after the integral part. -/
  parseJNumberTail (negStr intDigits : Str) (r0 : Str) : Option (PyObj × Str) :=
    let (fracStr, r1) : Str × Str := match r0 with
      | '.' :: rf =>
        let (fds, rf2) := spanDigits rf
        if fds.isEmpty then ([], r0) else ('.' :: fds, rf2)
      | _ => ([], r0)
    let (expStr, r2) : Str × Str := match r1 with
      | e :: sign :: re =>
        if (e = 'e' ∨ e = 'E') ∧ (sign = '+' ∨ sign = '-') then
          let (eds, re2) := spanDigits re
          if eds.isEmpty then ([], r1) else ([e, sign] ++ eds, re2)
        else if (e = 'e' ∨ e = 'E') ∧ sign.isDigit then
          let (eds, re2) := spanDigits (sign :: re)
          ([e] ++ eds, re2)
        else ([], r1)
      | [_] =>
        ([], r1)
      | [] => ([], r1)
    if fracStr.isEmpty ∧ expStr.isEmpty then
      let n : Int := Int.ofNat (digitsToNat intDigits)
      some (.int (if negStr.isEmpty then n else -n), r2)
    else
      some (.float (negStr ++ intDigits ++ fracStr ++ expStr), r2)

mutual
/-- `json.loads` value scanner (strict mode, including the `NaN` /
`Infinity` / `-Infinity` extensions Python accepts by default).  Fuel
decreases on every mutual call and at least one input character is
consumed for every two fuel steps, so `2 * length + 2` fuel always
suffices. -/
def parseJValue : Nat → Str → Option (PyObj × Str)
  | 0, _ => Option.none
  | fuel + 1, s =>
    match s with
    | [] => Option.none
    | c :: rest =>
      if c = '"' then
        match parseJStringAux (rest.length + 1) rest [] with
        | some (str, r) => some (.str str, r)
        | Option.none => Option.none
      else if c = '\x7b' then parseJObjectItems fuel (jsonSkipWs rest) [] true
      else if c = '[' then parseJArrayItems fuel (jsonSkipWs rest) [] true
      else if startsWithL s (lit "null") then some (.none, s.drop 4)
      else if startsWithL s (lit "true") then some (.bool true, s.drop 4)
      else if startsWithL s (lit "false") then some (.bool false, s.drop 5)
      else
        match parseJNumber s with
        | some (v, r) => some (v, r)
        | Option.none =>
          if startsWithL s (lit "NaN") then some (.float (lit "NaN"), s.drop 3)
          else if startsWithL s (lit "Infinity") then some (.float (lit "Infinity"), s.drop 8)
          else if startsWithL s (lit "-Infinity") then some (.float (lit "-Infinity"), s.drop 9)
          else Option.none

/-- Array items after `[` (whitespace already skipped); `first` marks
whether no item has been parsed yet (so `]` closes an empty array). -/
def parseJArrayItems : Nat → Str → List PyObj → Bool → Option (PyObj × Str)
  | 0, _, _, _ => Option.none
  | fuel + 1, s, acc, first =>
    match s with
    | ']' :: r => if first then some (.list [], r) else Option.none
    | _ =>
      match parseJValue fuel s with
      | Option.none => Option.none
      | some (v, r) =>
        match jsonSkipWs r with
        | ',' :: r2 => parseJArrayItems fuel (jsonSkipWs r2) (acc ++ [v]) false
        | ']' :: r2 => some (.list (acc ++ [v]), r2)
        | _ => Option.none

/-- Object items after the opening brace (whitespace already skipped);
later duplicate keys override earlier ones, as Python dicts do. -/
def parseJObjectItems : Nat → Str → List (Str × PyObj) → Bool → Option (PyObj × Str)
  | 0, _, _, _ => Option.none
  | fuel + 1, s, acc, first =>
    match s with
    | '\x7d' :: r => if first then some (.dict [], r) else Option.none
    | '"' :: rest =>
      match parseJStringAux (rest.length + 1) rest [] with
      | Option.none => Option.none
      | some (key, r) =>
        match jsonSkipWs r with
        | ':' :: r2 =>
          match parseJValue fuel (jsonSkipWs r2) with
          | Option.none => Option.none
          | some (v, r3) =>
            match jsonSkipWs r3 with
            | ',' :: r4 =>
              match jsonSkipWs r4 with
              | '"' :: r5 => parseJObjectItems fuel ('"' :: r5) (dictSet acc key v) false
              | _ => Option.none
            | '\x7d' :: r4 => some (.dict (dictSet acc key v), r4)
            | _ => Option.none
        | _ => Option.none
    | _ => Option.none

end

/-- `json.loads`: parse one value and require only whitespace after it;
`Option.none` models `json.JSONDecodeError`. -/
def jsonLoads (s : Str) : Option PyObj :=
  match parseJValue (2 * s.length + 2) (jsonSkipWs s) with
  | some (v, rest) => if (jsonSkipWs rest).isEmpty then some v else Option.none
  | Option.none => Option.none

/-! ### The four `re.findall` patterns of `_parse_generated_test_cases`
(`rag_service.py` lines 746-755), compiled by hand.  All quantifiers
involved are lazy and followed by literals, so the backtracking search is
deterministic: each scanner takes the first position where the next
literal matches. -/

/-- First occurrence of the literal `litp` (optionally ASCII
case-insensitive): returns the consumed original characters (including the
occurrence) and the rest. -/
def scanToLit (ci : Bool) (litp : Str) : Str → Str → Option (Str × Str)
  | [], _ => Option.none
  | s@(c :: rest), acc =>
    if (if ci then startsWithCI s litp else startsWithL s litp) then
      some (acc.reverse ++ s.take litp.length, s.drop litp.length)
    else scanToLit ci litp rest (c :: acc)

/-- `\s*` then the closing fence `` ``` ``: greedy whitespace followed by a
non-whitespace literal backtracks deterministically. -/
def fenceTail (s : Str) : Option Str :=
  let t := s.dropWhile pyIsSpace
  if startsWithL t (lit "```") then some (t.drop 3) else Option.none

/-- The lazy body `[\s\S]*?` up to the first `closer` that is followed by
`\s*` and a closing fence. -/
def lazyFenceClose (closer : Char) : Str → Str → Option (Str × Str)
  | [], _ => Option.none
  | x :: rest, acc =>
    if x = closer then
      match fenceTail rest with
      | some after => some ((x :: acc).reverse, after)
      | Option.none => lazyFenceClose closer rest (x :: acc)
    else lazyFenceClose closer rest (x :: acc)

/-- Patterns 1 and 2, `` ```(?:json)?\s*(\[[\s\S]*?\])\s*``` `` (array or
object variant, `re.DOTALL | re.IGNORECASE`): returns the capture group
and the rest after the whole match. -/
def matchFenced (opener closer : Char) (s : Str) : Option (Str × Str) :=
  if startsWithL s (lit "```") then
    let r1 := s.drop 3
    let r2 := if startsWithCI r1 (lit "json") then r1.drop 4 else r1
    let r3 := r2.dropWhile pyIsSpace
    match r3 with
    | c :: rest =>
      if c = opener then lazyFenceClose closer rest [c]
      else Option.none
    | [] => Option.none
  else Option.none

/-- Pattern 3, `(\[[\s\S]*?\{[\s\S]*?"id"[\s\S]*?\}[\s\S]*?\])`: a bracket,
then the first `{`, the first `"id"` (case-insensitive), the first `}`,
the first `]`. -/
def matchArrWithId (s : Str) : Option (Str × Str) :=
  match s with
  | '[' :: rest =>
    match scanToLit false (lit "\x7b") rest [] with
    | Option.none => Option.none
    | some (p1, r1) =>
      match scanToLit true (lit "\"id\"") r1 [] with
      | Option.none => Option.none
      | some (p2, r2) =>
        match scanToLit false (lit "\x7d") r2 [] with
        | Option.none => Option.none
        | some (p3, r3) =>
          match scanToLit false (lit "]") r3 [] with
          | Option.none => Option.none
          | some (p4, r4) => some ('[' :: (p1 ++ p2 ++ p3 ++ p4), r4)
  | _ => Option.none

/-- Pattern 4 phase 1, `[^\x7b\x7d]*?"id"`: the first `"id"` occurrence
reached without crossing a brace. -/
def simpleObjToId : Str → Str → Option (Str × Str)
  | [], _ => Option.none
  | s@(c :: rest), acc =>
    if startsWithCI s (lit "\"id\"") then
      some (acc.reverse ++ s.take 4, s.drop 4)
    else if c = '\x7b' ∨ c = '\x7d' then Option.none
    else simpleObjToId rest (c :: acc)

/-- Pattern 4 phase 2, `[^\x7b\x7d]*?\x7d`: the first closing brace reached
without crossing an opening brace. -/
def simpleObjToClose : Str → Str → Option (Str × Str)
  | [], _ => Option.none
  | c :: rest, acc =>
    if c = '\x7d' then some (acc.reverse ++ [c], rest)
    else if c = '\x7b' then Option.none
    else simpleObjToClose rest (c :: acc)

/-- Pattern 4, `(\x7b[^\x7b\x7d]*?"id"[^\x7b\x7d]*?\x7d)`. -/
def matchSimpleObj : Str → Option (Str × Str)
  | '\x7b' :: rest =>
    match simpleObjToId rest [] with
    | Option.none => Option.none
    | some (p1, r1) =>
      match simpleObjToClose r1 [] with
      | Option.none => Option.none
      | some (p2, r2) => some ('\x7b' :: (p1 ++ p2), r2)
  | _ => Option.none

/-- `re.findall`: scan left to right, emitting non-overlapping matches and
resuming after each whole match.  Every matcher above consumes at least one
character on success, so `length + 1` fuel suffices. -/
def findAllAux (matcher : Str → Option (Str × Str)) : Nat → Str → List Str
  | 0, _ => []
  | fuel + 1, s =>
    match matcher s with
    | some (g, rest) => g :: findAllAux matcher fuel rest
    | Option.none =>
      match s with
      | [] => []
      | _ :: rest => findAllAux matcher fuel rest

/-- `re.findall pattern s` for the hand-compiled matchers. -/
def findAll (matcher : Str → Option (Str × Str)) (s : Str) : List Str :=
  findAllAux matcher (s.length + 1) s

/-! ### `_normalize_test_case`, `_validate_test_case_structure`,
`_parse_text_format` and `_parse_generated_test_cases`
(`rag_service.py` lines 735-890) -/

/-- `rag_service.py` `_normalize_test_case` (lines 825-843): coerce the
candidate dict into the seven-key record shape, accepting `scenario` as an
alias for `scenerio`, defaulting the optional fields, and wrapping
string-typed `steps`/`expected` into singleton lists. -/
def normalizeTestCase (tc : PyObj) : PyObj :=
  let idv := pyStrip (pyToStr (tc.get (lit "id") (.str [])))
  let purpose := pyStrip (pyToStr (tc.get (lit "purpose") (.str [])))
  let scenerio := pyStrip (pyToStr (tc.get (lit "scenerio") (tc.get (lit "scenario") (.str []))))
  let testData := pyStrip (pyToStr (tc.get (lit "test_data") (.str (lit "Test data"))))
  let steps0 := tc.get (lit "steps") (.list [.str (lit "Manual test step")])
  let expected0 := tc.get (lit "expected") (.list [.str (lit "Expected result")])
  let note := pyStrip (pyToStr (tc.get (lit "note") (.str (lit "Generated test case"))))
  let steps := match steps0 with
    | .str s => PyObj.list [.str s]
    | v => v
  let expected := match expected0 with
    | .str s => PyObj.list [.str s]
    | v => v
  .dict [(lit "id", .str idv), (lit "purpose", .str purpose),
         (lit "scenerio", .str scenerio), (lit "test_data", .str testData),
         (lit "steps", steps), (lit "expected", expected), (lit "note", .str note)]

/-- `rag_service.py` `_validate_test_case_structure` (lines 887-890):
`all(field in test_case for field in ['id', 'purpose', 'scenerio'])` —
key presence only; values are not inspected. -/
def validateTestCaseStructure (tc : PyObj) : Bool :=
  [lit "id", lit "purpose", lit "scenerio"].all (fun f =>
    match tc with
    | .dict es => dictHasKey es f
    | _ => false)

/-- `line.split(':', 1)[-1]`: everything after the first colon, or the
whole line when there is none. -/
def afterFirstColon : Str → Option Str
  | [] => Option.none
  | ':' :: rest => some rest
  | _ :: rest => afterFirstColon rest

def splitColonLast (line : Str) : Str := (afterFirstColon line).getD line

/-- `line.split(':', 1)[-1].strip().strip('"\'')`. -/
def textFieldValue (line : Str) : Str :=
  pyStripChars (lit "\"'") (pyStrip (splitColonLast line))

def textMarkersId : List Str := [lit "id:", lit "test case id:", lit "testcase id:"]

/-- The flush step `if current_case and len(current_case) >= 3:
test_cases.append(self._normalize_test_case(current_case))` (lines
856-858 and 881-882). -/
def flushAcc (cur : List (Str × PyObj)) (acc : List PyObj) : List PyObj :=
  if cur.isEmpty = false ∧ 3 ≤ cur.length then acc ++ [normalizeTestCase (.dict cur)]
  else acc

/-- The non-id `elif` chain of `_parse_text_format` (lines 864-878): fill
the current candidate's fields; the accumulated list is untouched here. -/
def textUpdateCur (cur : List (Str × PyObj)) (line : Str) : List (Str × PyObj) :=
  if startsWithL line (lit "Purpose:") || containsSub (lowerStr line) (lit "purpose") then
    dictSet cur (lit "purpose") (.str (textFieldValue line))
  else if [lit "scenario:", lit "scenerio:"].any
      (fun p => containsSub (lowerStr line) p) then
    dictSet cur (lit "scenerio") (.str (textFieldValue line))
  else if containsSub (lowerStr line) (lit "test data:") then
    dictSet cur (lit "test_data") (.str (textFieldValue line))
  else if containsSub (lowerStr line) (lit "steps:") then
    dictSet cur (lit "steps")
      (.list ((((splitOnChar '|' (textFieldValue line)).map pyStrip).filter
        (fun s => s.isEmpty = false)).map PyObj.str))
  else if containsSub (lowerStr line) (lit "expected:") then
    dictSet cur (lit "expected")
      (.list ((((splitOnChar '|' (textFieldValue line)).map pyStrip).filter
        (fun s => s.isEmpty = false)).map PyObj.str))
  else if containsSub (lowerStr line) (lit "note:") then
    dictSet cur (lit "note") (.str (textFieldValue line))
  else cur

/-- One line of `_parse_text_format` (lines 851-878): start a new candidate
on an id marker (flushing the previous candidate when it has at least
three fields), otherwise fill the current candidate's fields following the
source's `elif` chain. -/
def processTextLine (cur : List (Str × PyObj)) (acc : List PyObj) (rawLine : Str) :
    List (Str × PyObj) × List PyObj :=
  if textMarkersId.any (fun p => containsSub (lowerStr (pyStrip rawLine)) p) then
    ([(lit "id", .str (textFieldValue (pyStrip rawLine)))], flushAcc cur acc)
  else if cur.isEmpty = false then
    (textUpdateCur cur (pyStrip rawLine), acc)
  else (cur, acc)

def parseTextFormatLoop : List Str → List (Str × PyObj) → List PyObj →
    List PyObj × List (Str × PyObj)
  | [], cur, acc => (acc, cur)
  | l :: ls, cur, acc =>
    let p := processTextLine cur acc l
    parseTextFormatLoop ls p.1 p.2

/-- `rag_service.py` `_parse_text_format` (lines 845-885). -/
def parseTextFormat (response : Str) : List PyObj :=
  flushAcc (parseTextFormatLoop (splitOnChar '\n' response) [] []).2
    (parseTextFormatLoop (splitOnChar '\n' response) [] []).1

/-- Lines 772-791: handle one parsed item — only dicts are considered,
normalized first, then validated, and appended on success. -/
def processParsedItem (acc : List PyObj) (item : PyObj) : List PyObj :=
  match item with
  | .dict es =>
    if validateTestCaseStructure (normalizeTestCase (.dict es))
    then acc ++ [normalizeTestCase (.dict es)] else acc
  | _ => acc

/-- Lines 761-799: handle one regex match — strip it, `json.loads` it (a
decode failure is caught and skipped), then process the array's items or
the single object. -/
def processMatch (acc : List PyObj) (m : Str) : List PyObj :=
  match jsonLoads (pyStrip m) with
  | Option.none => acc
  | some (.list items) => items.foldl processParsedItem acc
  | some (.dict es) => processParsedItem acc (.dict es)
  | some _ => acc

def patternMatchers : List (Str → Option (Str × Str)) :=
  [matchFenced '[' ']', matchFenced '\x7b' '\x7d', matchArrWithId, matchSimpleObj]

/-- Lines 757-803: run the pattern cascade, breaking after the first
pattern that leaves the accumulated list non-empty. -/
def runPatternsLoop : List (Str → Option (Str × Str)) → List PyObj → Str → List PyObj
  | [], acc, _ => acc
  | p :: ps, acc, s =>
    if ((findAll p s).foldl processMatch acc).isEmpty
    then runPatternsLoop ps ((findAll p s).foldl processMatch acc) s
    else (findAll p s).foldl processMatch acc

/-- `rag_service.py` `_parse_generated_test_cases` (lines 735-823): the
pattern cascade, then the text-format fallback when no JSON strategy
produced anything, then a final validation filter.  Every fallible step
(json decoding, normalization) is locally guarded in the source, so the
function is total and the outer catch-all `except` is unreachable. -/
def parseGeneratedTestCases (response : Str) : List PyObj :=
  (if (runPatternsLoop patternMatchers [] response).isEmpty
   then parseTextFormat response
   else runPatternsLoop patternMatchers [] response).filter validateTestCaseStructure

/-- A model response whose fenced JSON object has empty `id`, `purpose`
and `scenario` values (counterexample input for C2). -/
def fencedEmptyFieldsResponse : Str :=
  lit "```json\n\x7b\"id\": \"\", \"purpose\": \"\", \"scenario\": \"\"\x7d\n```"

/-- The record the parser returns for `fencedEmptyFieldsResponse`: required
fields present but empty, optional fields defaulted. -/
def emptyFieldsRecord : PyObj :=
  .dict [(lit "id", .str []), (lit "purpose", .str []), (lit "scenerio", .str []),
         (lit "test_data", .str (lit "Test data")),
         (lit "steps", .list [.str (lit "Manual test step")]),
         (lit "expected", .list [.str (lit "Expected result")]),
         (lit "note", .str (lit "Generated test case"))]

/-! ### The generation workflow (`rag_service.py` `_setup_workflow`,
`generate_test_cases`, `generate_test_cases_with_plan`) and the planning
service (`rag_planning_service.py`).  The remote chat model is an oracle
`llm : Nat → Except Str Str` giving the outcome of the n-th chain
invocation in a node run (`.error` models a raised exception carrying
`str(e)`); the retriever is an oracle `retr : Str → List RagDocument`. -/

/-- A LangChain `Document` as the workflow consumes it (only
`page_content` is read by the generate node). -/
structure RagDocument where
  page_content : Str

/-- Lines 324-339: accumulate document contents into the context under the
15000-char cap; on the first document that does not fit, append a
truncated remainder when more than 100 usable characters remain, then
stop.  `total` is an `Int` as in Python (the remainder computation can
only be sensibly read over ℤ). -/
def buildContextParts : List RagDocument → List Str → Int → List Str
  | [], acc, _ => acc
  | d :: rest, acc, total =>
    if total + d.page_content.length + 2 ≤ 15000 then
      buildContextParts rest (acc ++ [d.page_content])
        (total + d.page_content.length + 2)
    else
      if 15000 - total - 2 > 100 then
        acc ++ [d.page_content.take ((15000 - total - 2).toNat - 3) ++ lit "..."]
      else acc

/-- Lines 341-345: join the parts and append the truncation notice when a
document was dropped or any part contains `"..."`. -/
def buildContext (documents : List RagDocument) : Str :=
  if documents.length > (buildContextParts documents [] 0).length ∨
      (buildContextParts documents [] 0).any (fun p => containsSub p (lit "...")) then
    joinSep (lit "\n\n") (buildContextParts documents [] 0) ++
      lit "\n\n[Note: Some context was truncated to fit size limits]"
  else joinSep (lit "\n\n") (buildContextParts documents [] 0)

/-- Modelled from the spec: `DEFAULT_RAG_PROMPT_TEMPLATE` is imported by
`rag_service.py` from `vietnamese_prompts.py`, but that module (as present
under `src/`) only defines `VIETNAMESE_RAG_PROMPT_TEMPLATE` — the constant
itself is missing from the source.  The spec describes it as "a default
template" with `{context}` and `{question}` holes; no claim depends on its
exact text. -/
def DEFAULT_RAG_PROMPT_TEMPLATE : Str :=
  lit "Default RAG prompt template.\nContext:\n\x7bcontext\x7d\nQuestion:\n\x7bquestion\x7d"

/-- Modelled from the spec: `GENERAL_RULES_TEMPLATE`, the "fixed 'general
rules' suffix" appended to the default template; also missing from the
source under `src/`. -/
def GENERAL_RULES_TEMPLATE : Str := lit "General rules for test case generation."

/-- Lines 349-355: the template the node formats — the caller-supplied
custom template when truthy (non-empty), else default plus general rules. -/
def nodeTemplate (customPromptTemplate : Option Str) : Str :=
  match customPromptTemplate with
  | some t => if t.isEmpty then DEFAULT_RAG_PROMPT_TEMPLATE ++ lit "\n\n" ++ GENERAL_RULES_TEMPLATE else t
  | Option.none => DEFAULT_RAG_PROMPT_TEMPLATE ++ lit "\n\n" ++ GENERAL_RULES_TEMPLATE

/-- Python `str.format(context=..., question=...)`: `{{`/`}}` escapes,
`{context}`/`{question}` substitution; an unknown field raises `KeyError`
(whose `str` is the quoted name) and a stray brace raises `ValueError`.
Fuel is the template length; each step consumes at least one character. -/
def pyFormatAux (context question : Str) : Nat → Str → Except Str Str
  | 0, _ => .error (lit "format recursion limit")
  | _, [] => .ok []
  | fuel + 1, '\x7b' :: rest =>
    match rest with
    | '\x7b' :: rest2 =>
      (pyFormatAux context question fuel rest2).map (fun t => '\x7b' :: t)
    | _ =>
      match rest.dropWhile (· ≠ '\x7d') with
      | '\x7d' :: rest3 =>
        if rest.takeWhile (· ≠ '\x7d') = lit "context" then
          (pyFormatAux context question fuel rest3).map (context ++ ·)
        else if rest.takeWhile (· ≠ '\x7d') = lit "question" then
          (pyFormatAux context question fuel rest3).map (question ++ ·)
        else .error (pyReprStr (rest.takeWhile (· ≠ '\x7d')))
      | _ => .error (lit "Single '\x7b' encountered in format string")
  | fuel + 1, '\x7d' :: rest =>
    match rest with
    | '\x7d' :: rest2 =>
      (pyFormatAux context question fuel rest2).map (fun t => '\x7d' :: t)
    | _ => .error (lit "Single '\x7d' encountered in format string")
  | fuel + 1, c :: rest => (pyFormatAux context question fuel rest).map (c :: ·)

/-- `template.format(context=context, question=question)`. -/
def pyFormat (template context question : Str) : Except Str Str :=
  pyFormatAux context question (template.length + 1) template

/-- Lines 360-375 (the `try` block): format the final prompt; when it
exceeds 30000 characters and the context exceeds 10000, shrink the context
to 10000 plus a notice and reformat.  Returns the (possibly reassigned)
`context` variable and `final_prompt_text`; a formatting exception is
caught and recorded in the prompt text, after any context reassignment
already performed. -/
def formatPromptStep (template context question : Str) : Str × Str :=
  match pyFormat template context question with
  | .error e => (context, lit "Error formatting prompt: " ++ e)
  | .ok fp =>
    if fp.length > 30000 then
      if context.length > 10000 then
        match pyFormat template
            (context.take 10000 ++ lit "\n\n[Context truncated for prompt size limits]")
            question with
        | .ok fp2 =>
          (context.take 10000 ++ lit "\n\n[Context truncated for prompt size limits]", fp2)
        | .error e =>
          (context.take 10000 ++ lit "\n\n[Context truncated for prompt size limits]",
           lit "Error formatting prompt: " ++ e)
      else (context, fp)
    else (context, fp)

/-- Lines 377-392: invoke the chain; on an exception, retry once with the
context cut to 5000 chars plus a notice — but only when the current
context exceeds 5000 chars — and otherwise (or when the retry also fails)
return a synthetic error string as the generation.  Returns
`(generation, final context variable, number of chain invocations)`. -/
def invokeStep (llm : Nat → Except Str Str) (context : Str) : Str × Str × Nat :=
  match llm 0 with
  | .ok g => (g, context, 1)
  | .error e =>
    if context.length > 5000 then
      match llm 1 with
      | .ok g =>
        (g, context.take 5000 ++ lit "\n\n[Context further reduced due to processing limits]", 2)
      | .error e2 =>
        (lit "Error generating response: " ++ e2,
         context.take 5000 ++ lit "\n\n[Context further reduced due to processing limits]", 2)
    else (lit "Error generating response: " ++ e, context, 1)

/-- The context value in scope when the node first invokes the chain
(after building, and after the oversized-prompt shrink step). -/
def nodePreContext (customPromptTemplate : Option Str) (question : Str)
    (documents : List RagDocument) : Str :=
  (formatPromptStep (nodeTemplate customPromptTemplate) (buildContext documents) question).1

/-- The generate node's returned state (lines 319-400).  `llmCalls` is
instrumentation: how many times `rag_chain.invoke` ran in this node
execution. -/
structure NodeOut where
  question : Str
  documents : List RagDocument
  generation : Str
  final_prompt : Str
  context_used : Str
  llmCalls : Nat

/-- `generate_response_node` (lines 319-400). -/
def generateResponseNode (customPromptTemplate : Option Str)
    (llm : Nat → Except Str Str) (question : Str) (documents : List RagDocument) :
    NodeOut :=
  { question := question
    documents := documents
    generation := (invokeStep llm (nodePreContext customPromptTemplate question documents)).1
    final_prompt :=
      (formatPromptStep (nodeTemplate customPromptTemplate) (buildContext documents) question).2
    context_used :=
      (invokeStep llm (nodePreContext customPromptTemplate question documents)).2.1
    llmCalls :=
      (invokeStep llm (nodePreContext customPromptTemplate question documents)).2.2 }

/-- `retrieve_documents_node` (lines 314-317): pure delegation to the
retriever. -/
def retrieveDocumentsNode (retr : Str → List RagDocument) (question : Str) :
    List RagDocument := retr question

/-- The compiled two-node graph `retrieve → generate → END` (lines
402-409), as executed by `app.stream`: the caller reads the generate
node's output. -/
def runWorkflow (customPromptTemplate : Option Str) (retr : Str → List RagDocument)
    (llm : Nat → Except Str Str) (question : Str) : NodeOut :=
  generateResponseNode customPromptTemplate llm question
    (retrieveDocumentsNode retr question)

/-- The mutable service flags consulted by the guard clauses. -/
structure RagServiceState where
  is_initialized : Bool
  is_embedded : Bool

/-- Python truthiness of an optional string parameter
(`if custom_prompt:`). -/
def optStrTruthy : Option Str → Bool
  | some t => !t.isEmpty
  | Option.none => false

/-- The `{success, ...}` payload returned by `generate_test_cases`. -/
inductive SvcResult where
  | failure (error : Str)
  | success (generatedCases : List PyObj) (rawResponse finalPrompt contextUsed : Str)
            (usedCustomPrompt inputOptimized : Bool)

def SvcResult.isSuccess : SvcResult → Bool
  | .success .. => true
  | .failure _ => false

/-- Lines 420-432: optimize the documentation, build the query, and cut it
back under 25000 characters if needed. -/
def generateTestCasesQuery (apiDocumentation : Str) : Str :=
  if ((lit "Generate test cases for this API documentation:\n\n") ++
      optimizeApiDocumentation apiDocumentation).length > 25000 then
    (lit "Generate test cases for this API documentation:\n\n") ++
      (optimizeApiDocumentation apiDocumentation).take
        (25000 - (lit "Generate test cases for this API documentation:\n\n").length - 100) ++
      lit "\n\n[Content truncated due to size limits]"
  else
    (lit "Generate test cases for this API documentation:\n\n") ++
      optimizeApiDocumentation apiDocumentation

/-- `rag_service.py` `generate_test_cases` (lines 411-496): guard clauses
first (uninitialized, then not-embedded), then the workflow run; an empty
generation is the only remaining failure ("No response generated").  The
body after the guards is total, so the outer `except` is unreachable. -/
def generateTestCases (st : RagServiceState) (retr : Str → List RagDocument)
    (llm : Nat → Except Str Str) (apiDocumentation : Str)
    (customPrompt : Option Str) : SvcResult :=
  if st.is_initialized = false then .failure (lit "RAG service not initialized")
  else if st.is_embedded = false then
    .failure (lit "Documents not embedded. Please embed documents first.")
  else
    if (runWorkflow (if optStrTruthy customPrompt then customPrompt else Option.none)
        retr llm (generateTestCasesQuery apiDocumentation)).generation.isEmpty = false then
      .success
        (parseGeneratedTestCases
          (runWorkflow (if optStrTruthy customPrompt then customPrompt else Option.none)
            retr llm (generateTestCasesQuery apiDocumentation)).generation)
        (runWorkflow (if optStrTruthy customPrompt then customPrompt else Option.none)
          retr llm (generateTestCasesQuery apiDocumentation)).generation
        (runWorkflow (if optStrTruthy customPrompt then customPrompt else Option.none)
          retr llm (generateTestCasesQuery apiDocumentation)).final_prompt
        (runWorkflow (if optStrTruthy customPrompt then customPrompt else Option.none)
          retr llm (generateTestCasesQuery apiDocumentation)).context_used
        (optStrTruthy customPrompt)
        (decide (apiDocumentation.length ≠ (optimizeApiDocumentation apiDocumentation).length))
    else .failure (lit "No response generated")

/-! ### `rag_planning_service.py`: plan validation and call contexts -/

def requiredPlanFields : List Str :=
  [lit "combined_documentation", lit "estimated_calls_needed",
   lit "generation_calls", lit "total_estimated_test_cases"]

def requiredCallFields : List Str :=
  [lit "call_id", lit "focus_area", lit "description", lit "content_scope"]

/-- Lines 167-175: each call must be a dict carrying the four call
fields; the loop returns `False` at the first offender. -/
def validateCallsLoop : List PyObj → Bool
  | [] => true
  | c :: rest =>
    match c with
    | .dict es =>
      if requiredCallFields.all (fun f => dictHasKey es f) then validateCallsLoop rest
      else false
    | _ => false

/-- `rag_planning_service.py` `_validate_plan_structure` (lines 144-177). -/
def validatePlanStructure (planData : List (Str × PyObj)) : Bool :=
  if requiredPlanFields.all (fun f => dictHasKey planData f) then
    match (dictLookup planData (lit "generation_calls")).getD (.list []) with
    | .list calls => if calls.isEmpty then false else validateCallsLoop calls
    | _ => false
  else false

def PyObj.isList : PyObj → Bool
  | .list _ => true
  | _ => false

def pyTypeName : PyObj → Str
  | .str _ => lit "str"
  | .int _ => lit "int"
  | .float _ => lit "float"
  | .bool _ => lit "bool"
  | .none => lit "NoneType"
  | .list _ => lit "list"
  | .dict _ => lit "dict"

/-- Python truthiness of a value (`if not target_call:`). Float tokens are
treated as truthy — no claim reaches a float here. -/
def pyTruthy : PyObj → Bool
  | .str s => !s.isEmpty
  | .int n => decide (n ≠ 0)
  | .float _ => true
  | .bool b => b
  | .none => false
  | .list xs => !xs.isEmpty
  | .dict es => !es.isEmpty

/-- `dict.get` through a value that may not be a dict: Python raises
`AttributeError` then. -/
def pyGetE (o : PyObj) (k : Str) (dflt : PyObj) : Except Str PyObj :=
  match o with
  | .dict es => .ok ((dictLookup es k).getD dflt)
  | other =>
    .error (lit "'" ++ pyTypeName other ++ lit "' object has no attribute 'get'")

/-- Python `==` between a JSON value and the `int` parameter `call_id`:
ints compare by value, bools are ints (`True == 1`); other types compare
unequal.  (Float/int numeric equality is not modelled — no claim passes a
float `call_id`.) -/
def pyEqInt (v : PyObj) (n : Int) : Bool :=
  match v with
  | .int m => decide (m = n)
  | .bool b => decide ((if b then (1 : Int) else 0) = n)
  | _ => false

/-- Lines 185-189: find the first call whose `call_id` equals the
requested id; a non-dict element makes `call.get` raise
`AttributeError`. -/
def findCallE : List PyObj → Int → Except Str (Option PyObj)
  | [], _ => .ok Option.none
  | c :: rest, cid =>
    match c with
    | .dict es =>
      if pyEqInt ((dictLookup es (lit "call_id")).getD PyObj.none) cid
      then .ok (some (.dict es))
      else findCallE rest cid
    | other =>
      .error (lit "'" ++ pyTypeName other ++ lit "' object has no attribute 'get'")

/-- The focused context bundle built by `get_call_context`
(lines 198-208); field values are raw JSON values, rendered by `str()`
only when interpolated. -/
structure CallContext where
  combined_documentation : PyObj
  original_documentation : PyObj
  focus_area : PyObj
  description : PyObj
  content_scope : PyObj
  estimated_test_cases : PyObj
  call_id : Int
  total_calls : Nat

/-- The two non-exceptional outcomes of `get_call_context`:
`{"success": False, "error": ...}` or `{"success": True, "context": ...}`. -/
inductive CtxResult where
  | err (error : Str)
  | ok (ctx : CallContext)

/-- `rag_planning_service.py` `get_call_context` (lines 179-218), body in
an exception monad; Python's possibility of iterating a non-list
`generation_calls` (strings/dicts iterate their elements and then fail on
`.get`) is collapsed into a single `TypeError`-style exception — every
such path ends in the same caught-exception error payload. -/
def getCallContextE (plan : PyObj) (callId : Int) : Except Str CtxResult :=
  match pyGetE plan (lit "generation_calls") (.list []) with
  | .error e => .error e
  | .ok gcs =>
    match gcs with
    | .list calls =>
      match findCallE calls callId with
      | .error e => .error e
      | .ok targetOpt =>
        match targetOpt with
        | Option.none =>
          .ok (.err (lit "Call ID " ++ pyToStr (.int callId) ++ lit " not found in plan"))
        | some t =>
          if pyTruthy t = false then
            .ok (.err (lit "Call ID " ++ pyToStr (.int callId) ++ lit " not found in plan"))
          else
            .ok (.ok
              { combined_documentation := plan.get (lit "combined_documentation") (.str [])
                original_documentation := plan.get (lit "original_documentation") (.str [])
                focus_area := t.get (lit "focus_area") (.str [])
                description := t.get (lit "description") (.str [])
                content_scope := t.get (lit "content_scope") (.str [])
                estimated_test_cases := t.get (lit "estimated_test_cases") (.int 50)
                call_id := callId
                total_calls := calls.length })
    | other =>
      .error (lit "'" ++ pyTypeName other ++ lit "' object is not iterable")

/-- `get_call_context` with its outer `try/except` (lines 216-218). -/
def getCallContext (plan : PyObj) (callId : Int) : CtxResult :=
  match getCallContextE plan callId with
  | .ok r => r
  | .error e => .err e

/-- `_create_enhanced_prompt_for_call` (lines 649-685): the call-specific
preamble around the base template (segments copied verbatim from the
source, which stores this text with mojibake encoding). -/
def createEnhancedPromptForCall (ctx : CallContext) (customPrompt : Option Str) : Str :=
  (lit "## THÃ”NG TIN CALL HIá»†N Táº I\nCall ") ++ pyToStr (.int ctx.call_id) ++
  (lit "/") ++ pyToStr (.int ctx.total_calls) ++
  (lit " - Táº­p trung vÃ o: ") ++ pyToStr ctx.focus_area ++
  (lit "\n\nMÃ´ táº£: ") ++ pyToStr ctx.description ++
  (lit "\nPháº¡m vi ná»™i dung: ") ++ pyToStr ctx.content_scope ++
  (lit "\nSá»‘ test case Æ°á»›c tÃ­nh: ") ++ pyToStr ctx.estimated_test_cases ++
  (lit "\n\n## HÆ¯á»šNG DáºªN Äáº¶C BIá»†T CHO CALL NÃ€Y\n- Táº­p trung chá»§ yáº¿u vÃ o cÃ¡c API vÃ  business logic liÃªn quan Ä‘áº¿n: ") ++
  pyToStr ctx.focus_area ++
  (lit "\n- Æ¯u tiÃªn cÃ¡c ká»‹ch báº£n trong pháº¡m vi: ") ++ pyToStr ctx.content_scope ++
  (lit "\n- Táº¡o khoáº£ng ") ++ pyToStr ctx.estimated_test_cases ++
  (lit " test case cháº¥t lÆ°á»£ng cao\n- Äáº£m báº£o coverage toÃ n diá»‡n cho domain nÃ y\n\n") ++
  (match customPrompt with
   | some t => if t.isEmpty then DEFAULT_RAG_PROMPT_TEMPLATE ++ lit "\n\n" ++ GENERAL_RULES_TEMPLATE else t
   | Option.none => DEFAULT_RAG_PROMPT_TEMPLATE ++ lit "\n\n" ++ GENERAL_RULES_TEMPLATE) ++
  (lit "\n\n## LÆ¯U Ã QUAN TRá»ŒNG\nÄÃ¢y lÃ  call ") ++ pyToStr (.int ctx.call_id) ++
  (lit " trong tá»•ng sá»‘ ") ++ pyToStr (.int ctx.total_calls) ++
  (lit " calls. HÃ£y táº­p trung vÃ o domain \"") ++ pyToStr ctx.focus_area ++
  (lit "\" vÃ  táº¡o test case chi tiáº¿t, thá»±c táº¿ cho pháº¡m vi nÃ y.")

/-- Lines 563-570: the focused query.  `original_doc[:20000]` requires a
sliceable value (`str` or `list`); any other type raises `TypeError`,
caught by the outer handler. -/
def focusedQueryE (ctx : CallContext) : Except Str Str :=
  match ctx.original_documentation with
  | .str od =>
    .ok ((lit "Generate test cases for: ") ++ pyToStr ctx.focus_area ++
      (lit "\n            \nScope: ") ++ pyToStr ctx.content_scope ++
      (lit "\nDescription: ") ++ pyToStr ctx.description ++
      (lit "\n\nAPI Documentation (Full):\n") ++ od.take 20000)
  | .list xs =>
    .ok ((lit "Generate test cases for: ") ++ pyToStr ctx.focus_area ++
      (lit "\n            \nScope: ") ++ pyToStr ctx.content_scope ++
      (lit "\nDescription: ") ++ pyToStr ctx.description ++
      (lit "\n\nAPI Documentation (Full):\n") ++ pyToStr (.list (xs.take 20000)))
  | other =>
    .error (lit "'" ++ pyTypeName other ++ lit "' object is not subscriptable")

/-- The `{success, ...}` payload of `generate_test_cases_with_plan`. -/
inductive PlanGenResult where
  | failure (error : Str)
  | success (generatedCases : List PyObj) (rawResponse finalPrompt contextUsed : Str)
            (callId : Int) (focusArea contentScope : PyObj) (usedEnhancedPrompt : Bool)

def PlanGenResult.isSuccess : PlanGenResult → Bool
  | .success .. => true
  | .failure _ => false

/-- `rag_service.py` `generate_test_cases_with_plan` (lines 536-647); the
second component counts workflow executions (instrumentation).  The
oversized-query branch (lines 573-585) reads `combined_doc`, a local that
is never assigned anywhere in the function, so reaching it raises
`NameError("name 'combined_doc' is not defined")`, which the outer
`except` (lines 645-647) converts into `{"success": False, "error":
str(e)}` — the workflow is never invoked on that path. -/
def generateTestCasesWithPlan (st : RagServiceState) (retr : Str → List RagDocument)
    (llm : Nat → Except Str Str) (plan : PyObj) (callId : Int)
    (customPrompt : Option Str) : PlanGenResult × Nat :=
  if st.is_initialized = false then (.failure (lit "RAG service not initialized"), 0)
  else if st.is_embedded = false then
    (.failure (lit "Documents not embedded. Please embed documents first."), 0)
  else
    match getCallContext plan callId with
    | .err e => (.failure e, 0)
    | .ok ctx =>
      match focusedQueryE ctx with
      | .error e => (.failure e, 0)
      | .ok fq =>
        if fq.length > 25000 then
          (.failure (lit "name 'combined_doc' is not defined"), 0)
        else
          if (runWorkflow (some (createEnhancedPromptForCall ctx customPrompt))
              retr llm fq).generation.isEmpty = false then
            (.success
              (parseGeneratedTestCases
                (runWorkflow (some (createEnhancedPromptForCall ctx customPrompt))
                  retr llm fq).generation)
              (runWorkflow (some (createEnhancedPromptForCall ctx customPrompt))
                retr llm fq).generation
              (runWorkflow (some (createEnhancedPromptForCall ctx customPrompt))
                retr llm fq).final_prompt
              (runWorkflow (some (createEnhancedPromptForCall ctx customPrompt))
                retr llm fq).context_used
              callId ctx.focus_area ctx.content_scope true, 1)
          else
            (.failure (lit "No response generated for call " ++ pyToStr (.int callId)), 1)

/-! ### Concrete fixtures used by counterexamples and witnesses -/

/-- A chat-model oracle whose every invocation raises. -/
def alwaysFailOracle : Nat → Except Str Str := fun _ => .error (lit "boom")

/-- A chat-model oracle whose every invocation returns `"hello"`. -/
def okOracle : Nat → Except Str Str := fun _ => .ok (lit "hello")

/-- A retriever returning no documents. -/
def emptyRetriever : Str → List RagDocument := fun _ => []

/-- A minimal well-formed custom prompt template. -/
def tinyTemplate : Str := lit "\x7bcontext\x7d|\x7bquestion\x7d"

/-- A small retrieved document. -/
def tinyDoc : RagDocument := ⟨lit "similar test case"⟩

/-- A minimal plan accepted by `_validate_plan_structure`: exactly one
call carrying the four required call fields. -/
def minimalValidPlan : List (Str × PyObj) :=
  [(lit "combined_documentation", .str (lit "doc")),
   (lit "estimated_calls_needed", .int 1),
   (lit "generation_calls", .list [.dict
      [(lit "call_id", .int 1), (lit "focus_area", .str (lit "auth")),
       (lit "description", .str (lit "d")), (lit "content_scope", .str (lit "s"))]]),
   (lit "total_estimated_test_cases", .int 10)]

/-- A plan whose single call has a 26000-character description, driving
the assembled focused query past 25000 characters. -/
def oversizePlan : PyObj :=
  .dict [(lit "generation_calls", .list [.dict
      [(lit "call_id", .int 1),
       (lit "focus_area", .str (lit "auth")),
       (lit "description", .str (List.replicate 26000 'a')),
       (lit "content_scope", .str (lit "scope"))]]),
    (lit "combined_documentation", .str (lit "comb")),
    (lit "original_documentation", .str (lit "orig"))]

/-- The call context `get_call_context` produces for `oversizePlan`,
call 1. -/
def oversizeCtx : CallContext :=
  { combined_documentation := .str (lit "comb")
    original_documentation := .str (lit "orig")
    focus_area := .str (lit "auth")
    description := .str (List.replicate 26000 'a')
    content_scope := .str (lit "scope")
    estimated_test_cases := .int 50
    call_id := 1
    total_calls := 1 }

/-- The focused query assembled for `oversizeCtx`. -/
def oversizeQuery : Str :=
  (lit "Generate test cases for: ") ++ (lit "auth") ++
  (lit "\n            \nScope: ") ++ (lit "scope") ++
  (lit "\nDescription: ") ++ List.replicate 26000 'a' ++
  (lit "\n\nAPI Documentation (Full):\n") ++ (lit "orig")

/-- A plan dict whose `generation_calls` is the empty list. -/
def emptyCallsPlan : List (Str × PyObj) :=
  [(lit "combined_documentation", .str (lit "d")),
   (lit "estimated_calls_needed", .int 0),
   (lit "generation_calls", .list []),
   (lit "total_estimated_test_cases", .int 0)]

/-- A plan dict whose `generation_calls` is not a list. -/
def nonListCallsPlan : List (Str × PyObj) :=
  [(lit "combined_documentation", .str (lit "d")),
   (lit "estimated_calls_needed", .int 1),
   (lit "generation_calls", .int 3),
   (lit "total_estimated_test_cases", .int 0)]

/-- A plan dict whose single call lacks `content_scope`. -/
def missingScopeCallPlan : List (Str × PyObj) :=
  [(lit "combined_documentation", .str (lit "d")),
   (lit "estimated_calls_needed", .int 1),
   (lit "generation_calls", .list [.dict
      [(lit "call_id", .int 1), (lit "focus_area", .str (lit "a")),
       (lit "description", .str (lit "b"))]]),
   (lit "total_estimated_test_cases", .int 0)]

/-! ### Helper lemmas about all-`'a'` inputs (used to evaluate the
optimizers on large inputs without full kernel computation) -/

theorem splitOnCharAux_replicate (n : Nat) (acc : Str) :
    splitOnCharAux '\n' (List.replicate n 'a') acc = [acc.reverse ++ List.replicate n 'a'] := by
  induction n generalizing acc with
  | zero => simp [splitOnCharAux]
  | succ m ih =>
    rw [List.replicate_succ]
    simp only [splitOnCharAux, if_neg (by decide : ¬('a' = '\n'))]
    rw [ih]
    simp

theorem lowerStr_replicate (n : Nat) :
    lowerStr (List.replicate n 'a') = List.replicate n 'a' := by
  simp [lowerStr, List.map_replicate, lowerChar]

theorem startsWithL_replicate_a (kw : Str) (n : Nat)
    (h : kw.any (· != 'a') = true) :
    startsWithL (List.replicate n 'a') kw = false := by
  induction kw generalizing n with
  | nil => simp at h
  | cons k ks ih =>
    cases n with
    | zero => rfl
    | succ m =>
      rw [List.replicate_succ]
      by_cases hk : k = 'a'
      · subst hk
        simp only [List.any_cons, bne_self_eq_false, Bool.false_or] at h
        simp [startsWithL, ih m h]
      · simp [startsWithL, Ne.symm hk]

theorem containsSub_replicate_a (n : Nat) (kw : Str)
    (h : kw.any (· != 'a') = true) :
    containsSub (List.replicate n 'a') kw = false := by
  induction n with
  | zero =>
    have : kw ≠ [] := by rintro rfl; simp at h
    simp [containsSub, List.isEmpty_eq_true, this]
  | succ m ih =>
    rw [List.replicate_succ, containsSub]
    rw [← List.replicate_succ, startsWithL_replicate_a kw (m + 1) h, ih]
    rfl

theorem apiKeywords_have_non_a :
    apiPriorityKeywords.all (fun kw => kw.any (· != 'a')) = true := by decide

theorem api_keyword_scan_replicate (n : Nat) :
    (apiPriorityKeywords.any
      (fun kw => containsSub (lowerStr (List.replicate n 'a')) kw)) = false := by
  rw [List.any_eq_false]
  intro kw hkw
  rw [lowerStr_replicate]
  simp only [Bool.not_eq_true]
  exact containsSub_replicate_a n kw (List.all_eq_true.mp apiKeywords_have_non_a kw hkw)

/-- On a document that is one long line of `'a'`s exceeding the budget, the
API-documentation optimizer keeps nothing and returns just the truncation
notice. -/
theorem optimizeApi_replicate (n : Nat) (hn : 15000 < n) :
    optimizeApiDocumentation (List.replicate n 'a') =
      lit "\n\n[Note: Content optimized for processing - some details may be truncated]" := by
  unfold optimizeApiDocumentation
  rw [if_neg (by simp; omega)]
  have hsplit : splitOnChar '\n' (List.replicate n 'a') = [List.replicate n 'a'] := by
    simpa using splitOnCharAux_replicate n []
  simp only [hsplit]
  have hp1 : optimizeApiFirstPass [List.replicate n 'a'] [] 0 = ([], 0) := by
    simp [optimizeApiFirstPass, api_keyword_scan_replicate n]
  have hp2 : optimizeApiSecondPass [List.replicate n 'a'] [] 0 = ([], 0) := by
    simp [optimizeApiSecondPass]
    omega
  simp only [hp1, hp2]
  norm_num [joinSep]
  omega

/-- The record exhibiting the C3 failure: an id of 1600 characters and all
other fields empty. -/
def longIdRecord : TestCaseData :=
  ⟨List.replicate 1600 'a', [], [], [], [], [], []⟩

set_option maxRecDepth 40000 in
/-- C3 (code bug): the retrievable document built for `longIdRecord` has
1503 characters — the final truncation produces `content[:1500] + "..."`,
exceeding the 1500-character cap stated by the spec and by the code's own
comment ("max 1500 chars per document").  The id field is never truncated,
so the cap is reachable. -/
theorem build_document_exceeds_1500 :
    1500 < (buildDocumentContent longIdRecord).length ∧
    (buildDocumentContent longIdRecord).length = 1503 := by
  constructor <;> decide

/-- C4 (counterexample): a 15001-character document is within the claimed
25000-character identity region, yet `_optimize_api_documentation` rewrites
it (its threshold is 15000, not 25000). -/
theorem optimize_api_not_identity_at_15001 :
    (List.replicate 15001 'a' : Str).length ≤ 25000 ∧
    optimizeApiDocumentation (List.replicate 15001 'a') ≠ List.replicate 15001 'a' := by
  constructor
  · rw [List.length_replicate]; norm_num
  · rw [optimizeApi_replicate 15001 (by norm_num)]
    intro hEq
    have hlen := congrArg List.length hEq
    rw [List.length_replicate] at hlen
    exact absurd hlen (by decide)

/-- C4 (amended): each optimizer is the identity below its own threshold —
`_optimize_documentation_for_planning` for inputs of at most 25000
characters, `_optimize_api_documentation` only for inputs of at most 15000
characters. -/
theorem optimizers_identity_below_thresholds :
    (∀ doc : Str, doc.length ≤ 25000 → optimizeDocumentationForPlanning doc = doc) ∧
    (∀ doc : Str, doc.length ≤ 15000 → optimizeApiDocumentation doc = doc) := by
  constructor
  · intro doc h
    unfold optimizeDocumentationForPlanning
    rw [if_pos (Or.inr h)]
  · intro doc h
    unfold optimizeApiDocumentation
    rw [if_pos (Or.inr h)]

/-- Witness for `optimizers_identity_below_thresholds` at a concrete small
document. -/
theorem optimizers_identity_below_thresholds_witness :
    ((lit "api docs").length ≤ 25000 ∧
      optimizeDocumentationForPlanning (lit "api docs") = lit "api docs") ∧
    ((lit "api docs").length ≤ 15000 ∧
      optimizeApiDocumentation (lit "api docs") = lit "api docs") :=
  ⟨⟨by decide, optimizers_identity_below_thresholds.1 _ (by decide)⟩,
   ⟨by decide, optimizers_identity_below_thresholds.2 _ (by decide)⟩⟩

/-- C6: for a non-empty document list with positive total content size, the
batch size the code computes equals the spec's
`clamp(floor(20000 / avg_doc_size), 1, 10)` with `avg_doc_size` the exact
average document length, and it lies in `[1, 10]`. -/
theorem embed_batch_size_matches_spec (docLens : List Nat)
    (hne : docLens ≠ []) (hpos : 0 < docLens.sum) :
    optimalBatchSize docLens =
      specBatchSize ((docLens.sum : ℚ) / (docLens.length : ℚ)) ∧
    1 ≤ optimalBatchSize docLens ∧ optimalBatchSize docLens ≤ 10 := by
  have hlen : 0 < (docLens.length : ℚ) := by
    have := List.length_pos.mpr hne
    exact_mod_cast this
  have havg : 0 < (docLens.sum : ℚ) / (docLens.length : ℚ) := by
    apply div_pos _ hlen
    exact_mod_cast hpos
  have hF : docLens.isEmpty = false := by simpa [List.isEmpty_iff] using hne
  set avg : ℚ := (docLens.sum : ℚ) / (docLens.length : ℚ) with havgdef
  have hcode : optimalBatchSize docLens =
      max 1 (min 10 (Int.floor ((20000 : ℚ) / max avg 1))) := by
    simp only [optimalBatchSize, hF, Bool.false_eq_true, if_false, havgdef]
  refine ⟨?_, ?_, ?_⟩
  · rw [hcode]
    unfold specBatchSize
    rcases le_or_lt 1 avg with h1 | h1
    · rw [max_eq_left h1]
    · rw [max_eq_right h1.le]
      have hbig : (20000 : ℚ) ≤ 20000 / avg := by
        rw [le_div_iff₀ havg]
        nlinarith
      have hfloor : (20000 : ℤ) ≤ Int.floor ((20000 : ℚ) / avg) := by
        rw [Int.le_floor]
        exact_mod_cast hbig
      have h10a : min 10 (Int.floor ((20000 : ℚ) / 1)) = 10 := by norm_num
      have h10b : min (10 : ℤ) (Int.floor ((20000 : ℚ) / avg)) = 10 :=
        min_eq_left (by omega)
      rw [h10a, h10b]
  · rw [hcode]; exact le_max_left _ _
  · rw [hcode]
    exact max_le (by norm_num) (min_le_left _ _)

/-- Witness for `embed_batch_size_matches_spec` on two documents of sizes
100 and 300 (average 200, giving batch size 10). -/
theorem embed_batch_size_matches_spec_witness :
    ([100, 300] : List Nat) ≠ [] ∧ 0 < ([100, 300] : List Nat).sum ∧
    (optimalBatchSize [100, 300] =
      specBatchSize ((([100, 300] : List Nat).sum : ℚ) / (([100, 300] : List Nat).length : ℚ)) ∧
    1 ≤ optimalBatchSize [100, 300] ∧ optimalBatchSize [100, 300] ≤ 10) :=
  ⟨by decide, by decide, embed_batch_size_matches_spec [100, 300] (by decide) (by decide)⟩

/-! ### Parser invariants: everything the parser returns went through
`_normalize_test_case` -/

/-- Normalization always produces a dict. -/
theorem normalize_isDict (tc : PyObj) : (normalizeTestCase tc).isDict = true := rfl

/-- Normalization always installs the three required keys, so presence
validation succeeds on every normalized record. -/
theorem validate_normalize (tc : PyObj) :
    validateTestCaseStructure (normalizeTestCase tc) = true := by
  simp +decide [normalizeTestCase, validateTestCaseStructure, dictHasKey, dictLookup]

/-- A record is `normalized` when it is the output of
`_normalize_test_case` on some candidate. -/
def isNormalizedRecord (r : PyObj) : Prop := ∃ tc : PyObj, r = normalizeTestCase tc

theorem mem_processParsedItem {r : PyObj} {acc : List PyObj} {item : PyObj}
    (h : r ∈ processParsedItem acc item) : r ∈ acc ∨ isNormalizedRecord r := by
  unfold processParsedItem at h
  split at h
  · split at h
    · rcases List.mem_append.mp h with h2 | h2
      · exact Or.inl h2
      · exact Or.inr ⟨_, (List.mem_singleton.mp h2)⟩
    · exact Or.inl h
  · exact Or.inl h

theorem mem_foldl_processParsedItem {r : PyObj} :
    ∀ (items : List PyObj) (acc : List PyObj),
      r ∈ items.foldl processParsedItem acc → r ∈ acc ∨ isNormalizedRecord r := by
  intro items
  induction items with
  | nil => intro acc h; exact Or.inl h
  | cons it its ih =>
    intro acc h
    rcases ih (processParsedItem acc it) h with h2 | h2
    · exact mem_processParsedItem h2
    · exact Or.inr h2

theorem mem_processMatch {r : PyObj} {acc : List PyObj} {m : Str}
    (h : r ∈ processMatch acc m) : r ∈ acc ∨ isNormalizedRecord r := by
  unfold processMatch at h
  split at h
  · exact Or.inl h
  · exact mem_foldl_processParsedItem _ _ h
  · exact mem_processParsedItem h
  · exact Or.inl h

theorem mem_foldl_processMatch {r : PyObj} :
    ∀ (ms : List Str) (acc : List PyObj),
      r ∈ ms.foldl processMatch acc → r ∈ acc ∨ isNormalizedRecord r := by
  intro ms
  induction ms with
  | nil => intro acc h; exact Or.inl h
  | cons m ms ih =>
    intro acc h
    rcases ih (processMatch acc m) h with h2 | h2
    · exact mem_processMatch h2
    · exact Or.inr h2

theorem mem_runPatternsLoop {r : PyObj} :
    ∀ (ps : List (Str → Option (Str × Str))) (acc : List PyObj) (s : Str),
      r ∈ runPatternsLoop ps acc s → r ∈ acc ∨ isNormalizedRecord r := by
  intro ps
  induction ps with
  | nil => intro acc s h; exact Or.inl h
  | cons p ps ih =>
    intro acc s h
    unfold runPatternsLoop at h
    split at h
    · rcases ih _ s h with h2 | h2
      · exact mem_foldl_processMatch _ _ h2
      · exact Or.inr h2
    · exact mem_foldl_processMatch _ _ h

theorem mem_flushAcc {r : PyObj} {cur : List (Str × PyObj)} {acc : List PyObj}
    (h : r ∈ flushAcc cur acc) : r ∈ acc ∨ isNormalizedRecord r := by
  unfold flushAcc at h
  split at h
  · rcases List.mem_append.mp h with h2 | h2
    · exact Or.inl h2
    · exact Or.inr ⟨_, List.mem_singleton.mp h2⟩
  · exact Or.inl h

theorem mem_processTextLine {r : PyObj} {cur : List (Str × PyObj)}
    {acc : List PyObj} {l : Str}
    (h : r ∈ (processTextLine cur acc l).2) : r ∈ acc ∨ isNormalizedRecord r := by
  unfold processTextLine at h
  split at h
  · exact mem_flushAcc h
  · split at h
    · exact Or.inl h
    · exact Or.inl h

theorem mem_parseTextFormatLoop {r : PyObj} :
    ∀ (ls : List Str) (cur : List (Str × PyObj)) (acc : List PyObj),
      r ∈ (parseTextFormatLoop ls cur acc).1 → r ∈ acc ∨ isNormalizedRecord r := by
  intro ls
  induction ls with
  | nil => intro cur acc h; exact Or.inl h
  | cons l ls ih =>
    intro cur acc h
    unfold parseTextFormatLoop at h
    rcases ih _ _ h with h2 | h2
    · exact mem_processTextLine h2
    · exact Or.inr h2

theorem mem_parseTextFormat {r : PyObj} {s : Str}
    (h : r ∈ parseTextFormat s) : isNormalizedRecord r := by
  unfold parseTextFormat at h
  rcases mem_flushAcc h with h2 | h2
  · rcases mem_parseTextFormatLoop _ _ _ h2 with h3 | h3
    · simp at h3
    · exact h3
  · exact h2

/-- Every record the parser returns is a `_normalize_test_case` output. -/
theorem mem_parse_isNormalized {r : PyObj} {s : Str}
    (h : r ∈ parseGeneratedTestCases s) : isNormalizedRecord r := by
  unfold parseGeneratedTestCases at h
  have h2 := (List.mem_filter.mp h).1
  split at h2
  · exact mem_parseTextFormat h2
  · rcases mem_runPatternsLoop _ _ _ h2 with h3 | h3
    · simp at h3
    · exact h3

set_option maxRecDepth 8000 in
/-- C1: the response parser is a total function returning a (possibly
empty) list of dict records: on the empty string, truncated JSON and
non-JSON prose it returns `[]`, and every element of its output on any
input is a dict.  "Never raises" holds structurally: every fallible step
(`json.loads`, normalization) is guarded inside the source function, so
the embedding is total without reaching the outer catch-all. -/
theorem parse_returns_list_never_raises :
    parseGeneratedTestCases (lit "") = [] ∧
    parseGeneratedTestCases (lit "\x7b\"id\": \"tc1\", ") = [] ∧
    parseGeneratedTestCases (lit "The system works correctly.") = [] ∧
    ∀ s : Str, (parseGeneratedTestCases s).all PyObj.isDict = true := by
  refine ⟨rfl, rfl, rfl, ?_⟩
  intro s
  rw [List.all_eq_true]
  intro r hr
  obtain ⟨tc, rfl⟩ := mem_parse_isNormalized hr
  exact normalize_isDict tc

set_option maxRecDepth 8000 in
/-- C2 (counterexample): on a fenced JSON object whose `id`, `purpose` and
`scenario` are all empty strings, the parser returns one record whose
three required fields are empty — the record is *not* dropped, because
`_validate_test_case_structure` checks key presence only and
normalization installs all keys. -/
theorem parse_keeps_record_with_empty_required_fields :
    parseGeneratedTestCases fencedEmptyFieldsResponse = [emptyFieldsRecord] ∧
    emptyFieldsRecord.get (lit "id") (.str (lit "absent")) = .str [] ∧
    emptyFieldsRecord.get (lit "purpose") (.str (lit "absent")) = .str [] ∧
    emptyFieldsRecord.get (lit "scenerio") (.str (lit "absent")) = .str [] :=
  ⟨rfl, rfl, rfl, rfl⟩

/-- C2 (amended): every record the parser returns contains the keys `id`,
`purpose` and `scenerio` (with `scenario` folded into `scenerio` during
normalization), but their values may be empty: validation checks key
presence only, and normalization always installs the keys, so candidates
are never dropped for empty values. -/
theorem parse_records_have_required_keys :
    (∀ s : Str, (parseGeneratedTestCases s).all validateTestCaseStructure = true) ∧
    (∀ tc : PyObj, validateTestCaseStructure (normalizeTestCase tc) = true) ∧
    (normalizeTestCase (.dict [(lit "scenario", .str (lit "v"))])).get
      (lit "scenerio") (.str []) = .str (lit "v") := by
  refine ⟨?_, validate_normalize, rfl⟩
  intro s
  rw [List.all_eq_true]
  intro r hr
  unfold parseGeneratedTestCases at hr
  exact (List.mem_filter.mp hr).2

/-- C5 (counterexample): an invocation failure with a small built context
(17 characters, well under 5000): the node performs exactly one chain
invocation — no retry happens — and returns the synthetic error string.
The claim's "retries exactly once with the context capped at 5000"
predicts two invocations here. -/
theorem generate_node_failure_without_retry :
    alwaysFailOracle 0 = .error (lit "boom") ∧
    (generateResponseNode (some tinyTemplate) alwaysFailOracle (lit "q") [tinyDoc]).llmCalls = 1 ∧
    (generateResponseNode (some tinyTemplate) alwaysFailOracle (lit "q") [tinyDoc]).generation =
      lit "Error generating response: boom" :=
  ⟨rfl, rfl, rfl⟩

/-- C5 (amended): when the chain invocation fails, the node retries once
with the context cut to 5000 characters (plus a reduction notice) *only
when the current context exceeds 5000 characters*; with a context of at
most 5000 characters it returns the synthetic error string immediately,
with a single invocation.  In both cases the failure is absorbed — the
node always returns a state (model failures never propagate). -/
theorem generate_node_retry_only_above_5000
    (cpt : Option Str) (llm : Nat → Except Str Str) (q : Str)
    (docs : List RagDocument) (e : Str) (hfail : llm 0 = .error e) :
    (5000 < (nodePreContext cpt q docs).length →
      (generateResponseNode cpt llm q docs).llmCalls = 2 ∧
      (∀ g, llm 1 = .ok g → (generateResponseNode cpt llm q docs).generation = g) ∧
      (∀ e2, llm 1 = .error e2 →
        (generateResponseNode cpt llm q docs).generation =
          lit "Error generating response: " ++ e2)) ∧
    ((nodePreContext cpt q docs).length ≤ 5000 →
      (generateResponseNode cpt llm q docs).llmCalls = 1 ∧
      (generateResponseNode cpt llm q docs).generation =
        lit "Error generating response: " ++ e) := by
  constructor
  · intro hbig
    refine ⟨?_, ?_, ?_⟩
    · cases h1 : llm 1 with
      | ok g => simp [generateResponseNode, invokeStep, hfail, h1, hbig]
      | error e2 => simp [generateResponseNode, invokeStep, hfail, h1, hbig]
    · intro g hg
      simp [generateResponseNode, invokeStep, hfail, hg, hbig]
    · intro e2 h2
      simp [generateResponseNode, invokeStep, hfail, h2, hbig]
  · intro hsmall
    have hns : ¬ 5000 < (nodePreContext cpt q docs).length := by omega
    constructor <;> simp [generateResponseNode, invokeStep, hfail, hns]

/-- Witness for `generate_node_retry_only_above_5000` at the concrete
small-context run. -/
theorem generate_node_retry_only_above_5000_witness :
    alwaysFailOracle 0 = Except.error (lit "boom") ∧
    ((5000 < (nodePreContext (some tinyTemplate) (lit "q") [tinyDoc]).length →
      (generateResponseNode (some tinyTemplate) alwaysFailOracle (lit "q") [tinyDoc]).llmCalls = 2 ∧
      (∀ g, alwaysFailOracle 1 = .ok g →
        (generateResponseNode (some tinyTemplate) alwaysFailOracle (lit "q") [tinyDoc]).generation = g) ∧
      (∀ e2, alwaysFailOracle 1 = .error e2 →
        (generateResponseNode (some tinyTemplate) alwaysFailOracle (lit "q") [tinyDoc]).generation =
          lit "Error generating response: " ++ e2)) ∧
    ((nodePreContext (some tinyTemplate) (lit "q") [tinyDoc]).length ≤ 5000 →
      (generateResponseNode (some tinyTemplate) alwaysFailOracle (lit "q") [tinyDoc]).llmCalls = 1 ∧
      (generateResponseNode (some tinyTemplate) alwaysFailOracle (lit "q") [tinyDoc]).generation =
        lit "Error generating response: " ++ lit "boom")) :=
  ⟨rfl, generate_node_retry_only_above_5000 (some tinyTemplate) alwaysFailOracle
    (lit "q") [tinyDoc] (lit "boom") rfl⟩

theorem validateCallsLoop_false_of_missing {calls : List PyObj} {es : List (Str × PyObj)}
    {f : Str} (hc : PyObj.dict es ∈ calls) (hf : f ∈ requiredCallFields)
    (hmiss : dictHasKey es f = false) : validateCallsLoop calls = false := by
  induction calls with
  | nil => cases hc
  | cons c rest ih =>
    rcases List.mem_cons.mp hc with rfl | hmem
    · have hall : ¬ (requiredCallFields.all fun g => dictHasKey es g) = true := by
        intro hall
        have := List.all_eq_true.mp hall f hf
        rw [hmiss] at this
        exact Bool.false_ne_true this
      rw [show validateCallsLoop (PyObj.dict es :: rest) =
        (if (requiredCallFields.all fun g => dictHasKey es g) = true
         then validateCallsLoop rest else false) from rfl]
      rw [if_neg hall]
    · cases c with
      | dict es2 =>
        rw [show validateCallsLoop (PyObj.dict es2 :: rest) =
          (if (requiredCallFields.all fun g => dictHasKey es2 g) = true
           then validateCallsLoop rest else false) from rfl]
        by_cases h2 : (requiredCallFields.all fun g => dictHasKey es2 g) = true
        · rw [if_pos h2]; exact ih hmem
        · rw [if_neg h2]
      | str s => rfl
      | int n => rfl
      | float t => rfl
      | bool b => rfl
      | none => rfl
      | list xs => rfl

/-- C7: plan structural validation returns `false` for a plan dict missing
any of the four required top-level keys, for a plan whose
`generation_calls` is empty or not a list, and for a plan containing a
call entry lacking any of the four required call fields; it returns
`true` on a minimal valid plan with exactly one complete call. -/
theorem plan_validation_requirements :
    (∀ (p : List (Str × PyObj)) (f : Str), f ∈ requiredPlanFields →
      dictHasKey p f = false → validatePlanStructure p = false) ∧
    (∀ p : List (Str × PyObj),
      dictLookup p (lit "generation_calls") = some (.list []) →
      validatePlanStructure p = false) ∧
    (∀ (p : List (Str × PyObj)) (v : PyObj),
      dictLookup p (lit "generation_calls") = some v → v.isList = false →
      validatePlanStructure p = false) ∧
    (∀ (p : List (Str × PyObj)) (calls : List PyObj) (es : List (Str × PyObj)) (f : Str),
      dictLookup p (lit "generation_calls") = some (.list calls) →
      PyObj.dict es ∈ calls → f ∈ requiredCallFields → dictHasKey es f = false →
      validatePlanStructure p = false) ∧
    validatePlanStructure minimalValidPlan = true := by
  refine ⟨?_, ?_, ?_, ?_, by decide⟩
  · intro p f hf hmiss
    have hall : ¬ (requiredPlanFields.all fun g => dictHasKey p g) = true := by
      intro hall
      have := List.all_eq_true.mp hall f hf
      rw [hmiss] at this
      exact Bool.false_ne_true this
    unfold validatePlanStructure
    rw [if_neg hall]
  · intro p hl
    by_cases hall : (requiredPlanFields.all fun g => dictHasKey p g) = true
    · unfold validatePlanStructure
      rw [if_pos hall, hl]
      rfl
    · unfold validatePlanStructure
      rw [if_neg hall]
  · intro p v hl hv
    by_cases hall : (requiredPlanFields.all fun g => dictHasKey p g) = true
    · unfold validatePlanStructure
      rw [if_pos hall, hl]
      cases v with
      | list xs => simp [PyObj.isList] at hv
      | str s => rfl
      | int n => rfl
      | float t => rfl
      | bool b => rfl
      | none => rfl
      | dict es => rfl
    · unfold validatePlanStructure
      rw [if_neg hall]
  · intro p calls es f hl hc hf hmiss
    by_cases hall : (requiredPlanFields.all fun g => dictHasKey p g) = true
    · unfold validatePlanStructure
      rw [if_pos hall, hl]
      have hne : calls.isEmpty = false := by
        cases calls with
        | nil => cases hc
        | cons a b => rfl
      simp only [Option.getD_some, hne, Bool.false_eq_true, if_false]
      exact validateCallsLoop_false_of_missing hc hf hmiss
    · unfold validatePlanStructure
      rw [if_neg hall]

/-- Witness for `plan_validation_requirements`: each rejection clause at a
concrete plan, plus the acceptance of the minimal valid plan. -/
theorem plan_validation_requirements_witness :
    ((lit "combined_documentation") ∈ requiredPlanFields ∧
      dictHasKey [] (lit "combined_documentation") = false ∧
      validatePlanStructure [] = false) ∧
    (dictLookup emptyCallsPlan (lit "generation_calls") = some (.list []) ∧
      validatePlanStructure emptyCallsPlan = false) ∧
    (dictLookup nonListCallsPlan (lit "generation_calls") = some (.int 3) ∧
      validatePlanStructure nonListCallsPlan = false) ∧
    (dictHasKey [(lit "call_id", PyObj.int 1), (lit "focus_area", PyObj.str (lit "a")),
        (lit "description", PyObj.str (lit "b"))] (lit "content_scope") = false ∧
      validatePlanStructure missingScopeCallPlan = false) ∧
    validatePlanStructure minimalValidPlan = true :=
  ⟨⟨by decide, rfl,
    plan_validation_requirements.1 [] (lit "combined_documentation") (by decide) rfl⟩,
   ⟨rfl, plan_validation_requirements.2.1 emptyCallsPlan rfl⟩,
   ⟨rfl, plan_validation_requirements.2.2.1 nonListCallsPlan (.int 3) rfl rfl⟩,
   ⟨rfl, plan_validation_requirements.2.2.2.1 missingScopeCallPlan _ _
      (lit "content_scope") rfl (List.mem_singleton.mpr rfl) (by decide) rfl⟩,
   plan_validation_requirements.2.2.2.2⟩

/-- C8: `generate_test_cases` fails with the not-initialized error whenever
the service is uninitialized and with the not-embedded error whenever it
is initialized but nothing is embedded — in both cases for *every*
retriever and model oracle, i.e. before any retrieval or generation work;
the two error messages are distinct; and with both flags set, a run whose
retriever returns zero documents and whose model answers non-emptily
succeeds (zero retrieved documents is not an error). -/
theorem generate_test_cases_guard_errors :
    (∀ (st : RagServiceState) (retr : Str → List RagDocument)
        (llm : Nat → Except Str Str) (doc : Str) (cp : Option Str),
      st.is_initialized = false →
        generateTestCases st retr llm doc cp =
          .failure (lit "RAG service not initialized")) ∧
    (∀ (st : RagServiceState) (retr : Str → List RagDocument)
        (llm : Nat → Except Str Str) (doc : Str) (cp : Option Str),
      st.is_initialized = true → st.is_embedded = false →
        generateTestCases st retr llm doc cp =
          .failure (lit "Documents not embedded. Please embed documents first.")) ∧
    lit "RAG service not initialized" ≠
      lit "Documents not embedded. Please embed documents first." ∧
    (∀ (llm : Nat → Except Str Str) (doc : Str) (cp : Option Str) (g : Str),
      llm 0 = .ok g → g.isEmpty = false →
        (generateTestCases ⟨true, true⟩ (fun _ => []) llm doc cp).isSuccess = true) := by
  refine ⟨?_, ?_, by decide, ?_⟩
  · intro st retr llm doc cp h
    simp [generateTestCases, h]
  · intro st retr llm doc cp h1 h2
    simp [generateTestCases, h1, h2]
  · intro llm doc cp g hg hne
    simp [generateTestCases, runWorkflow, generateResponseNode, invokeStep, hg, hne,
      SvcResult.isSuccess]

/-- Witness for `generate_test_cases_guard_errors` at concrete states and
oracles. -/
theorem generate_test_cases_guard_errors_witness :
    ((⟨false, false⟩ : RagServiceState).is_initialized = false ∧
      generateTestCases ⟨false, false⟩ emptyRetriever alwaysFailOracle (lit "doc")
        Option.none = .failure (lit "RAG service not initialized")) ∧
    ((⟨true, false⟩ : RagServiceState).is_initialized = true ∧
      (⟨true, false⟩ : RagServiceState).is_embedded = false ∧
      generateTestCases ⟨true, false⟩ emptyRetriever alwaysFailOracle (lit "doc")
        Option.none =
        .failure (lit "Documents not embedded. Please embed documents first.")) ∧
    (okOracle 0 = .ok (lit "hello") ∧ (lit "hello").isEmpty = false ∧
      (generateTestCases ⟨true, true⟩ (fun _ => []) okOracle (lit "doc")
        Option.none).isSuccess = true) :=
  ⟨⟨rfl, generate_test_cases_guard_errors.1 ⟨false, false⟩ emptyRetriever
      alwaysFailOracle (lit "doc") Option.none rfl⟩,
   ⟨rfl, rfl, generate_test_cases_guard_errors.2.1 ⟨true, false⟩ emptyRetriever
      alwaysFailOracle (lit "doc") Option.none rfl rfl⟩,
   ⟨rfl, rfl, generate_test_cases_guard_errors.2.2.2 okOracle (lit "doc")
      Option.none (lit "hello") rfl rfl⟩⟩

/-- C10: whenever the service is initialized and embedded, the call
context resolves, and the assembled focused query exceeds 25000
characters, `generate_test_cases_with_plan` returns the
`{"success": False}` payload carrying the `NameError` message for the
unassigned local `combined_doc`, and the workflow is never invoked
(execution count 0). -/
theorem oversize_query_fails_before_workflow
    (st : RagServiceState) (retr : Str → List RagDocument)
    (llm : Nat → Except Str Str) (plan : PyObj) (callId : Int)
    (cp : Option Str) (ctx : CallContext) (fq : Str)
    (hinit : st.is_initialized = true) (hemb : st.is_embedded = true)
    (hctx : getCallContext plan callId = .ok ctx)
    (hfq : focusedQueryE ctx = .ok fq)
    (hlen : 25000 < fq.length) :
    generateTestCasesWithPlan st retr llm plan callId cp =
      (.failure (lit "name 'combined_doc' is not defined"), 0) := by
  simp [generateTestCasesWithPlan, hinit, hemb, hctx, hfq, hlen]

/-- Witness for `oversize_query_fails_before_workflow` on `oversizePlan`,
whose single call has a 26000-character description. -/
theorem oversize_query_fails_before_workflow_witness :
    ((⟨true, true⟩ : RagServiceState).is_initialized = true ∧
     getCallContext oversizePlan 1 = .ok oversizeCtx ∧
     focusedQueryE oversizeCtx = .ok oversizeQuery ∧
     25000 < oversizeQuery.length) ∧
    generateTestCasesWithPlan ⟨true, true⟩ emptyRetriever alwaysFailOracle
      oversizePlan 1 Option.none =
      (.failure (lit "name 'combined_doc' is not defined"), 0) :=
  ⟨⟨rfl, rfl, rfl, by
      simp only [oversizeQuery, List.length_append, List.length_replicate]
      omega⟩,
   oversize_query_fails_before_workflow ⟨true, true⟩ emptyRetriever alwaysFailOracle
     oversizePlan 1 Option.none oversizeCtx oversizeQuery rfl rfl rfl rfl
     (by
      simp only [oversizeQuery, List.length_append, List.length_replicate]
      omega)⟩
